import Mathlib

/-!
Shallow embedding of the TrkGo geospatial core:
  * `src/lib/geolocation.ts` — point-in-polygon test, Haversine distance, fare;
  * the admin geofence editor component — vertex editing state and save;
  * `src/components/booking/BookingFlow.tsx` — drop-off classification.
JavaScript numbers are embedded as `ℚ` where the code's decisions are
compared and branched on, and as `ℝ` for the trigonometric distance
function.  Fallible steps (the external persistence collaborator, the
guarded division) are explicit parameters / `Option` results.
-/

namespace TrkGo

/-- `Coordinates` interface from `src/lib/geolocation.ts`. -/
structure Coordinates where
  lat : ℚ
  lng : ℚ
  deriving DecidableEq, Repr

/-- `GeofencePolygon` interface (one polygon vertex) from `src/lib/geolocation.ts`. -/
structure GeofencePolygon where
  lat : ℚ
  lng : ℚ
  deriving DecidableEq, Repr

/-- The edge-crossing test from the loop body of `isPointInPolygon`:
`((yi > lng) !== (yj > lng)) && (lat < (xj - xi) * (lng - yi) / (yj - yi) + xi)`.
Over `ℚ`, division by zero yields `0` (the guarded variant below shows the
divisor is never zero when the test is reached). -/
def edgeCheck (lat lng xi yi xj yj : ℚ) : Bool :=
  (decide (yi > lng) != decide (yj > lng)) &&
    decide (lat < (xj - xi) * (lng - yi) / (yj - yi) + xi)

/-- `isPointInPolygon` from `src/lib/geolocation.ts`: returns `false` for
polygons with fewer than 3 vertices, otherwise ray casting over the edges
`(polygon[j], polygon[i])` with `j = i == 0 ? n-1 : i-1`, toggling `inside`
whenever the edge-crossing test fires. -/
def isPointInPolygon (point : Coordinates) (polygon : List GeofencePolygon) : Bool :=
  if polygon.length < 3 then false
  else
    let lat := point.lat
    let lng := point.lng
    let n := polygon.length
    (List.range n).foldl
      (fun inside i =>
        let j := if i = 0 then n - 1 else i - 1
        let vi := polygon.getD i ⟨0, 0⟩
        let vj := polygon.getD j ⟨0, 0⟩
        if edgeCheck lat lng vi.lat vi.lng vj.lat vj.lng then !inside else inside)
      false

/-- Division that signals a zero divisor instead of defaulting. -/
def safeDiv (a b : ℚ) : Option ℚ :=
  if b = 0 then none else some (a / b)

/-- The edge-crossing test with the division guarded: `none` would mean the
loop body divided by zero. -/
def edgeCheckChecked (lat lng xi yi xj yj : ℚ) : Option Bool :=
  if decide (yi > lng) != decide (yj > lng) then
    (safeDiv (lng - yi) (yj - yi)).map (fun q => decide (lat < (xj - xi) * q + xi))
  else some false

/-- `isPointInPolygon` with every division guarded; `none` would mean some
iteration divided by zero. -/
def isPointInPolygonChecked (point : Coordinates) (polygon : List GeofencePolygon) :
    Option Bool :=
  if polygon.length < 3 then some false
  else
    let lat := point.lat
    let lng := point.lng
    let n := polygon.length
    (List.range n).foldl
      (fun acc i =>
        acc.bind (fun inside =>
          let j := if i = 0 then n - 1 else i - 1
          let vi := polygon.getD i ⟨0, 0⟩
          let vj := polygon.getD j ⟨0, 0⟩
          (edgeCheckChecked lat lng vi.lat vi.lng vj.lat vj.lng).map
            (fun intersect => if intersect then !inside else inside)))
      (some false)

/-- Trip types of `calculateFare`. -/
inductive TripType where
  | village
  | outbound
  deriving DecidableEq, Repr

/-- `calculateFare` from `src/lib/geolocation.ts`: base 20 (village) / 40
(outbound), surcharge `Math.ceil(distanceKm) * 10`, result
`Math.max(baseFare, baseFare + distanceFare)`. -/
def calculateFare (tripType : TripType) (distanceKm : ℚ) : ℚ :=
  let VILLAGE_BASE_FARE : ℚ := 20
  let OUTBOUND_BASE_FARE : ℚ := 40
  let RATE_PER_KM : ℚ := 10
  let baseFare := if tripType = TripType.village then VILLAGE_BASE_FARE else OUTBOUND_BASE_FARE
  let distanceFare := (⌈distanceKm⌉ : ℚ) * RATE_PER_KM
  max baseFare (baseFare + distanceFare)

/-! ### Haversine distance over ℝ (`calculateDistance` in `src/lib/geolocation.ts`) -/

/-- Coordinates over the reals, for the trigonometric distance function. -/
structure CoordinatesR where
  lat : ℝ
  lng : ℝ

/-- `toRad` helper from `src/lib/geolocation.ts`: `deg * (Math.PI / 180)`. -/
noncomputable def toRad (deg : ℝ) : ℝ := deg * (Real.pi / 180)

/-- Embedding of JavaScript `Math.atan2(y, x)` (principal value in `(-π, π]`,
by sign of the quadrant; `atan2 0 0 = 0`). -/
noncomputable def atan2 (y x : ℝ) : ℝ :=
  if 0 < x then Real.arctan (y / x)
  else if x < 0 ∧ 0 ≤ y then Real.arctan (y / x) + Real.pi
  else if x < 0 ∧ y < 0 then Real.arctan (y / x) - Real.pi
  else if x = 0 ∧ 0 < y then Real.pi / 2
  else if x = 0 ∧ y < 0 then -(Real.pi / 2)
  else 0

/-- `calculateDistance` from `src/lib/geolocation.ts` (Haversine, R = 6371 km). -/
noncomputable def calculateDistance (point1 point2 : CoordinatesR) : ℝ :=
  let R : ℝ := 6371
  let dLat := toRad (point2.lat - point1.lat)
  let dLon := toRad (point2.lng - point1.lng)
  let lat1 := toRad point1.lat
  let lat2 := toRad point2.lat
  let a := Real.sin (dLat / 2) * Real.sin (dLat / 2) +
    Real.sin (dLon / 2) * Real.sin (dLon / 2) * Real.cos lat1 * Real.cos lat2
  let c := 2 * atan2 (Real.sqrt a) (Real.sqrt (1 - a))
  R * c

/-! ### Geofence editor state model (admin `GeofenceEditor` component)

The component's state hooks become an explicit state record; each React
state-setter call becomes a field update.  The `useEffect` that recomputes
`hasChanges` after `vertices` / `originalVertices` change is `updateDirty`,
applied after every mutation.  `JSON.stringify(a) !== JSON.stringify(b)`
on vertex arrays is embedded as structural inequality of the lists. -/

/-- `GeofencePoint` interface of the editor component. -/
structure GeofencePoint where
  lat : ℚ
  lng : ℚ
  deriving DecidableEq, Repr

/-- The editor component's state hooks: loaded geofence record (its id),
`vertices`, `originalVertices`, `isEditing`, `isSaving`, `hasChanges`. -/
structure EditorState where
  geofence : Option String
  vertices : List GeofencePoint
  originalVertices : List GeofencePoint
  isEditing : Bool
  isSaving : Bool
  hasChanges : Bool
  deriving DecidableEq, Repr

/-- The `useEffect` recomputing the dirty flag: only when
`originalVertices.length > 0` does it set
`hasChanges := JSON.stringify(vertices) !== JSON.stringify(originalVertices)`. -/
def updateDirty (s : EditorState) : EditorState :=
  if 0 < s.originalVertices.length then
    { s with hasChanges := decide (s.vertices ≠ s.originalVertices) }
  else s

/-- JavaScript `Array.prototype.filter` with the index callback, as used in
`handleVertexRemove`: keep the elements whose index satisfies `p`. -/
def filterWithIndex (p : Nat → GeofencePoint → Bool) : List GeofencePoint → Nat → List GeofencePoint
  | [], _ => []
  | a :: as, i => if p i a then a :: filterWithIndex p as (i + 1) else filterWithIndex p as (i + 1)

/-- `handleVertexRemove` state updater: `prev.filter((_, i) => i !== index)`. -/
def handleVertexRemove (vs : List GeofencePoint) (index : Nat) : List GeofencePoint :=
  filterWithIndex (fun i _ => i ≠ index) vs 0

/-- The `contextmenu` handler of `PolygonEditor`: right-click removes the
vertex only when `vertices.length > 3`, else nothing happens. -/
def removeVertexEvent (vs : List GeofencePoint) (index : Nat) : List GeofencePoint :=
  if 3 < vs.length then handleVertexRemove vs index else vs

/-- The editing-session mutations of the component (map click, marker drag,
right-click, the Clear button). -/
inductive EditorOp where
  | addVertex (pos : GeofencePoint)
  | moveVertex (index : Nat) (pos : GeofencePoint)
  | removeVertex (index : Nat)
  | clearAll
  deriving Repr

/-- One mutation followed by the dirty-flag effect:
`handleVertexAdd` appends, `handleVertexMove` replaces at the index,
right-click removal is `removeVertexEvent`, `handleClear` empties. -/
def applyOp (op : EditorOp) (s : EditorState) : EditorState :=
  match op with
  | EditorOp.addVertex pos => updateDirty { s with vertices := s.vertices ++ [pos] }
  | EditorOp.moveVertex index pos => updateDirty { s with vertices := s.vertices.set index pos }
  | EditorOp.removeVertex index =>
      updateDirty { s with vertices := removeVertexEvent s.vertices index }
  | EditorOp.clearAll => updateDirty { s with vertices := [] }

/-- A whole editing session: a sequence of mutations applied in order. -/
def applyOps (ops : List EditorOp) (s : EditorState) : EditorState :=
  ops.foldl (fun t op => applyOp op t) s

/-- `handleReset`: `setVertices([...originalVertices])` (plus the effect). -/
def handleReset (s : EditorState) : EditorState :=
  updateDirty { s with vertices := s.originalVertices }

/-- Outcome reported by `handleSave` (its toast). -/
inductive SaveOutcome where
  | validationError
  | saveFailed
  | saved
  deriving DecidableEq, Repr

/-- `handleSave`: validation `!geofence || vertices.length < 3` toasts an
error and returns; otherwise the external update runs (`collabOk` is its
outcome); on failure only an error is reported; on success
`originalVertices := [...vertices]` and `isEditing := false` (plus the
dirty-flag effect).  `isSaving` is set and then cleared around the call. -/
def handleSave (s : EditorState) (collabOk : Bool) : EditorState × SaveOutcome :=
  if s.geofence.isNone || s.vertices.length < 3 then
    (s, SaveOutcome.validationError)
  else
    let s1 := { s with isSaving := false }
    if collabOk then
      (updateDirty { s1 with originalVertices := s1.vertices, isEditing := false },
        SaveOutcome.saved)
    else
      (s1, SaveOutcome.saveFailed)

/-! ### Booking flow drop-off classification (`BookingFlow.tsx`) -/

/-- `Station` interface of `BookingFlow.tsx`. -/
structure Station where
  id : String
  name : String
  latitude : ℚ
  longitude : ℚ
  deriving DecidableEq, Repr

/-- `BookingStep` union type of `BookingFlow.tsx`. -/
inductive BookingStep where
  | pickup
  | dropoff
  | confirm
  | searching
  | matched
  | complete
  deriving DecidableEq, Repr

/-- The state hooks of `BookingFlow` touched by drop-off selection. -/
structure BookingState where
  step : BookingStep
  dropoffLocation : Option Coordinates
  selectedStation : Option Station
  tripType : TripType
  deriving DecidableEq, Repr

/-- `handleDropoffSelect(coords, stationId?)`: records the drop-off; when a
station id is given it looks the station up (`stations.find`) and, if found,
records it and sets `outbound`; when no id is given, inside the geofence
sets `village` and clears the station, outside sets `outbound` and clears
the station; finally advances to `confirm`. -/
def handleDropoffSelect (stations : List Station) (geofence : List GeofencePolygon)
    (s : BookingState) (coords : Coordinates) (stationId : Option String) : BookingState :=
  let s0 := { s with dropoffLocation := some coords }
  let s1 :=
    match stationId with
    | some sid =>
        match stations.find? (fun (st : Station) => st.id == sid) with
        | some station => { s0 with selectedStation := some station, tripType := TripType.outbound }
        | none => s0
    | none =>
        if isPointInPolygon coords geofence then
          { s0 with tripType := TripType.village, selectedStation := none }
        else
          { s0 with tripType := TripType.outbound, selectedStation := none }
  { s1 with step := BookingStep.confirm }

/-! ## Theorems about the embedded program -/

/-- C1: for every point and every polygon with fewer than 3 vertices,
`isPointInPolygon` returns `false`. -/
theorem C1_short_polygon_false (point : Coordinates) (polygon : List GeofencePolygon)
    (h : polygon.length < 3) : isPointInPolygon point polygon = false := by
  unfold isPointInPolygon
  rw [if_pos h]

/-- Witness for C1 at the empty polygon and the origin. -/
theorem C1_short_polygon_false_witness :
    ([] : List GeofencePolygon).length < 3 ∧
      isPointInPolygon ⟨0, 0⟩ ([] : List GeofencePolygon) = false :=
  ⟨by decide, C1_short_polygon_false ⟨0, 0⟩ [] (by decide)⟩

/-- C2: for every `tripType` and every `distanceKm ≥ 0`, `calculateFare`
equals `max base (base + ⌈distanceKm⌉ * 10)` with base 20 for village and
40 for outbound; and concretely `calculateFare village 0 = 20`,
`calculateFare village 1.5 = 40`, `calculateFare outbound 0 = 40`. -/
theorem C2_fare_formula :
    (∀ (t : TripType) (d : ℚ), 0 ≤ d →
      calculateFare t d =
        max (if t = TripType.village then (20 : ℚ) else 40)
          ((if t = TripType.village then (20 : ℚ) else 40) + (⌈d⌉ : ℚ) * 10)) ∧
    calculateFare TripType.village 0 = 20 ∧
    calculateFare TripType.village (3 / 2) = 40 ∧
    calculateFare TripType.outbound 0 = 40 := by
  refine ⟨fun t d _ => rfl, ?_, ?_, ?_⟩
  · simp only [calculateFare]
    norm_num
  · have h : ⌈(3 / 2 : ℚ)⌉ = 2 := by rw [Int.ceil_eq_iff]; norm_num
    simp only [calculateFare, h]
    norm_num
  · simp only [calculateFare]
    norm_num
    decide

/-- Witness for C2 at `tripType = village`, `distanceKm = 1`. -/
theorem C2_fare_formula_witness :
    calculateFare TripType.village 1 =
      max (if TripType.village = TripType.village then (20 : ℚ) else 40)
        ((if TripType.village = TripType.village then (20 : ℚ) else 40) + (⌈(1 : ℚ)⌉ : ℚ) * 10) :=
  C2_fare_formula.1 TripType.village 1 (by norm_num)

/-- C3: on the square `[(0,0),(0,10),(10,10),(10,0)]` (lat, lng), the point
`(5,5)` is classified inside and `(20,20)` outside. -/
theorem C3_square_membership :
    isPointInPolygon ⟨5, 5⟩ [⟨0, 0⟩, ⟨0, 10⟩, ⟨10, 10⟩, ⟨10, 0⟩] = true ∧
    isPointInPolygon ⟨20, 20⟩ [⟨0, 0⟩, ⟨0, 10⟩, ⟨10, 10⟩, ⟨10, 0⟩] = false := by
  constructor <;> norm_num [isPointInPolygon, edgeCheck, List.range_succ]

/-- The edge-crossing guard `(yi > lng) !== (yj > lng)` implies the divisor
`yj - yi` is nonzero, so the guarded edge test never signals a zero
divisor and agrees with the total one. -/
lemma edgeCheckChecked_eq_some (lat lng xi yi xj yj : ℚ) :
    edgeCheckChecked lat lng xi yi xj yj = some (edgeCheck lat lng xi yi xj yj) := by
  by_cases h0 : yj - yi = 0
  · have hyy : yj = yi := sub_eq_zero.mp h0
    subst hyy
    simp [edgeCheckChecked, edgeCheck]
  · by_cases hg : (decide (yi > lng) != decide (yj > lng)) = true
    · simp only [edgeCheckChecked, edgeCheck, hg, if_true, safeDiv, if_neg h0, Bool.true_and]
      rw [mul_div_assoc]
      rfl
    · simp only [edgeCheckChecked, edgeCheck, hg, if_false, Bool.false_and]
      rw [if_neg (by simp at hg; simp [hg])]

/-- Folding the guarded edge tests over any index list stays in `some` and
computes the same flag as the total fold. -/
lemma foldl_checked_eq_some (f : Nat → Option Bool) (g : Nat → Bool)
    (hfg : ∀ i, f i = some (g i)) (l : List Nat) :
    ∀ b : Bool,
      l.foldl
          (fun acc i =>
            acc.bind (fun inside =>
              (f i).map (fun intersect => if intersect then !inside else inside)))
          (some b) =
        some (l.foldl (fun inside i => if g i then !inside else inside) b) := by
  induction l with
  | nil => intro b; rfl
  | cons x xs ih =>
      intro b
      simp only [List.foldl_cons, hfg x, Option.bind_some, Option.map_some]
      exact ih _

/-- C10: the division in `isPointInPolygon`'s edge test is always guarded by
`(yi > lng) !== (yj > lng)`, which forces `yj ≠ yi`; in the embedding where
division signals a zero divisor, the guarded predicate returns `some` of the
total one on every input — the error branch is unreachable. -/
theorem C10_division_guarded (point : Coordinates) (polygon : List GeofencePolygon) :
    isPointInPolygonChecked point polygon = some (isPointInPolygon point polygon) := by
  unfold isPointInPolygon isPointInPolygonChecked
  by_cases h : polygon.length < 3
  · rw [if_pos h, if_pos h]
  · rw [if_neg h, if_neg h]
    exact foldl_checked_eq_some _ _
      (fun i => edgeCheckChecked_eq_some point.lat point.lng
        (polygon.getD i ⟨0, 0⟩).lat (polygon.getD i ⟨0, 0⟩).lng
        (polygon.getD (if i = 0 then polygon.length - 1 else i - 1) ⟨0, 0⟩).lat
        (polygon.getD (if i = 0 then polygon.length - 1 else i - 1) ⟨0, 0⟩).lng)
      (List.range polygon.length) false

/-- C9: over the embedded real-number arithmetic, `calculateDistance p p = 0`
for every coordinate `p`, and `calculateDistance` is symmetric in its two
arguments. -/
theorem C9_distance_identity_and_symmetry :
    (∀ p : CoordinatesR, calculateDistance p p = 0) ∧
    (∀ a b : CoordinatesR, calculateDistance a b = calculateDistance b a) := by
  constructor
  · intro p
    simp only [calculateDistance, toRad, sub_self, zero_mul, zero_div, Real.sin_zero,
      mul_zero, add_zero, Real.sqrt_zero, sub_zero, Real.sqrt_one]
    rw [atan2, if_pos one_pos]
    simp [Real.arctan_zero]
  · intro p q
    have key : ∀ x y : ℝ,
        Real.sin (toRad (x - y) / 2) * Real.sin (toRad (x - y) / 2) =
          Real.sin (toRad (y - x) / 2) * Real.sin (toRad (y - x) / 2) := by
      intro x y
      have h : toRad (x - y) = -toRad (y - x) := by simp only [toRad]; ring
      rw [h, neg_div, Real.sin_neg]
      ring
    simp only [calculateDistance]
    have hA : Real.sin (toRad (q.lat - p.lat) / 2) * Real.sin (toRad (q.lat - p.lat) / 2) +
        Real.sin (toRad (q.lng - p.lng) / 2) * Real.sin (toRad (q.lng - p.lng) / 2) *
          Real.cos (toRad p.lat) * Real.cos (toRad q.lat) =
        Real.sin (toRad (p.lat - q.lat) / 2) * Real.sin (toRad (p.lat - q.lat) / 2) +
        Real.sin (toRad (p.lng - q.lng) / 2) * Real.sin (toRad (p.lng - q.lng) / 2) *
          Real.cos (toRad q.lat) * Real.cos (toRad p.lat) := by
      rw [key q.lat p.lat, key q.lng p.lng]
      ring
    rw [hA]

/-- The dirty-flag effect never touches `vertices`. -/
lemma updateDirty_vertices (s : EditorState) : (updateDirty s).vertices = s.vertices := by
  unfold updateDirty
  split <;> rfl

/-- The dirty-flag effect never touches `originalVertices`. -/
lemma updateDirty_originalVertices (s : EditorState) :
    (updateDirty s).originalVertices = s.originalVertices := by
  unfold updateDirty
  split <;> rfl

/-- The dirty-flag effect never touches `isEditing`. -/
lemma updateDirty_isEditing (s : EditorState) : (updateDirty s).isEditing = s.isEditing := by
  unfold updateDirty
  split <;> rfl

/-- No editing-session mutation touches `originalVertices`. -/
lemma applyOp_originalVertices (op : EditorOp) (s : EditorState) :
    (applyOp op s).originalVertices = s.originalVertices := by
  cases op <;> simp [applyOp, updateDirty_originalVertices]

/-- C4: in editing mode, `handleSave` with fewer than 3 vertices only reports
a validation error (state untouched); with a loaded geofence and at least 3
vertices, a failing collaborator leaves `originalVertices`, `vertices` and
editing mode unchanged, and a succeeding collaborator commits
`originalVertices := vertices` and exits editing.  (The loaded-geofence
hypothesis reflects the §4.4 lifecycle: the record is fetched on mount
before an editing session.) -/
theorem C4_save_transitions (s : EditorState) (collabOk : Bool)
    (hEdit : s.isEditing = true) :
    (s.vertices.length < 3 →
        handleSave s collabOk = (s, SaveOutcome.validationError)) ∧
    (s.geofence.isSome = true → 3 ≤ s.vertices.length → collabOk = false →
        (handleSave s collabOk).2 = SaveOutcome.saveFailed ∧
        (handleSave s collabOk).1.originalVertices = s.originalVertices ∧
        (handleSave s collabOk).1.vertices = s.vertices ∧
        (handleSave s collabOk).1.isEditing = true) ∧
    (s.geofence.isSome = true → 3 ≤ s.vertices.length → collabOk = true →
        (handleSave s collabOk).2 = SaveOutcome.saved ∧
        (handleSave s collabOk).1.originalVertices = s.vertices ∧
        (handleSave s collabOk).1.isEditing = false) := by
  refine ⟨?_, ?_, ?_⟩
  · intro hlen
    simp [handleSave, hlen]
  · intro hgeo hlen hfail
    subst hfail
    obtain ⟨g, hg⟩ := Option.isSome_iff_exists.mp hgeo
    have hnlt : ¬s.vertices.length < 3 := Nat.not_lt.mpr hlen
    simp [handleSave, hg, hnlt, hEdit]
  · intro hgeo hlen hok
    subst hok
    obtain ⟨g, hg⟩ := Option.isSome_iff_exists.mp hgeo
    have hnlt : ¬s.vertices.length < 3 := Nat.not_lt.mpr hlen
    simp [handleSave, hg, hnlt, updateDirty_originalVertices, updateDirty_isEditing]

/-- Witness for C4: a successful save from a 3-vertex editing session
commits the baseline and exits editing. -/
theorem C4_save_transitions_witness :
    (handleSave ⟨some "g", [⟨0, 0⟩, ⟨0, 1⟩, ⟨1, 0⟩], [], true, false, false⟩ true).2 =
        SaveOutcome.saved ∧
    (handleSave ⟨some "g", [⟨0, 0⟩, ⟨0, 1⟩, ⟨1, 0⟩], [], true, false, false⟩ true).1.originalVertices
        = [⟨0, 0⟩, ⟨0, 1⟩, ⟨1, 0⟩] ∧
    (handleSave ⟨some "g", [⟨0, 0⟩, ⟨0, 1⟩, ⟨1, 0⟩], [], true, false, false⟩ true).1.isEditing
        = false :=
  (C4_save_transitions ⟨some "g", [⟨0, 0⟩, ⟨0, 1⟩, ⟨1, 0⟩], [], true, false, false⟩ true
    rfl).2.2 rfl (by decide) rfl

/-- `filterWithIndex` keeping the indices different from `k`, started at
offset `n`, erases position `k - n` (and is the identity when `k < n`). -/
lemma filterWithIndex_ne_eraseIdx (vs : List GeofencePoint) :
    ∀ n k : Nat,
      filterWithIndex (fun i _ => i ≠ k) vs n =
        if k < n then vs else vs.eraseIdx (k - n) := by
  induction vs with
  | nil => intro n k; simp [filterWithIndex, List.eraseIdx_nil]
  | cons a as ih =>
      intro n k
      simp only [filterWithIndex, ih]
      by_cases h : n = k
      · subst h
        rw [if_neg (by simp), if_pos (Nat.lt_succ_self n), if_neg (lt_irrefl n)]
        simp [Nat.sub_self, List.eraseIdx_cons_zero]
      · rw [if_pos (by simp [h])]
        by_cases hk : k < n
        · rw [if_pos (Nat.lt_succ_of_lt hk), if_pos hk]
        · rw [if_neg (by omega : ¬k < n + 1), if_neg hk]
          obtain ⟨m, hm⟩ : ∃ m, k - n = m + 1 := ⟨k - n - 1, by omega⟩
          rw [hm, List.eraseIdx_cons_succ, (by omega : k - (n + 1) = m)]

/-- C5: right-click vertex removal deletes the vertex at the index only when
more than 3 vertices remain; at 3 or fewer it is a silent no-op. -/
theorem C5_remove_vertex_guard (vs : List GeofencePoint) (index : Nat) :
    (vs.length ≤ 3 → removeVertexEvent vs index = vs) ∧
    (3 < vs.length → removeVertexEvent vs index = vs.eraseIdx index) := by
  constructor
  · intro hle
    unfold removeVertexEvent
    rw [if_neg (Nat.not_lt.mpr hle)]
  · intro hgt
    unfold removeVertexEvent
    rw [if_pos hgt]
    unfold handleVertexRemove
    rw [filterWithIndex_ne_eraseIdx]
    simp

/-- Witness for C5: removal at index 1 is a no-op on a triangle and deletes
the vertex on a quadrilateral. -/
theorem C5_remove_vertex_guard_witness :
    removeVertexEvent [⟨0, 0⟩, ⟨1, 1⟩, ⟨2, 2⟩] 1 = [⟨0, 0⟩, ⟨1, 1⟩, ⟨2, 2⟩] ∧
    removeVertexEvent [⟨0, 0⟩, ⟨1, 1⟩, ⟨2, 2⟩, ⟨3, 3⟩] 1 =
      List.eraseIdx [⟨0, 0⟩, ⟨1, 1⟩, ⟨2, 2⟩, ⟨3, 3⟩] 1 :=
  ⟨(C5_remove_vertex_guard [⟨0, 0⟩, ⟨1, 1⟩, ⟨2, 2⟩] 1).1 (by decide),
   (C5_remove_vertex_guard [⟨0, 0⟩, ⟨1, 1⟩, ⟨2, 2⟩, ⟨3, 3⟩] 1).2 (by decide)⟩

/-- C6: `originalVertices` is invariant under any finite sequence of
add/move/remove/clear mutations, and a subsequent `handleReset` makes
`vertices` exactly equal to it (same order and values). -/
theorem C6_baseline_invariant_reset (s : EditorState) (ops : List EditorOp) :
    (applyOps ops s).originalVertices = s.originalVertices ∧
    (handleReset (applyOps ops s)).vertices = s.originalVertices := by
  have hbase : ∀ (l : List EditorOp) (t : EditorState),
      (applyOps l t).originalVertices = t.originalVertices := by
    intro l
    induction l with
    | nil => intro t; rfl
    | cons op l ih =>
        intro t
        simp only [applyOps, List.foldl_cons]
        rw [show (List.foldl (fun t op => applyOp op t) (applyOp op t) l) =
          applyOps l (applyOp op t) from rfl, ih, applyOp_originalVertices]
  refine ⟨hbase ops s, ?_⟩
  unfold handleReset
  rw [updateDirty_vertices]
  exact hbase ops s

/-- The dirty-flag effect computes exact structural inequality whenever the
baseline is non-empty, and leaves the flag untouched otherwise. -/
lemma updateDirty_spec (t : EditorState) :
    (t.originalVertices ≠ [] →
      ((updateDirty t).hasChanges = true ↔ (updateDirty t).vertices ≠ (updateDirty t).originalVertices)) ∧
    (t.originalVertices = [] → (updateDirty t).hasChanges = t.hasChanges) := by
  constructor
  · intro hne
    have hpos : 0 < t.originalVertices.length := List.length_pos.mpr hne
    unfold updateDirty
    rw [if_pos hpos]
    simp
  · intro hnil
    unfold updateDirty
    rw [if_neg (by simp [hnil])]

/-- C8 (amended): after every mutation, when the baseline `originalVertices`
is non-empty the dirty flag equals the order-sensitive structural inequality
`vertices ≠ originalVertices`; when the baseline is empty the effect does
not recompute the flag and it keeps its previous value. -/
theorem C8_dirty_flag_amended (s : EditorState) (op : EditorOp) :
    ((applyOp op s).originalVertices ≠ [] →
      ((applyOp op s).hasChanges = true ↔
        (applyOp op s).vertices ≠ (applyOp op s).originalVertices)) ∧
    ((applyOp op s).originalVertices = [] → (applyOp op s).hasChanges = s.hasChanges) := by
  obtain ⟨t, ht, hth⟩ :
      ∃ t : EditorState, applyOp op s = updateDirty t ∧ t.hasChanges = s.hasChanges := by
    cases op
    all_goals exact ⟨_, rfl, rfl⟩
  rw [ht]
  constructor
  · intro hne
    exact (updateDirty_spec t).1 (by rwa [updateDirty_originalVertices] at hne)
  · intro hnil
    rw [(updateDirty_spec t).2 (by rwa [updateDirty_originalVertices] at hnil), hth]

/-- Counterexample for C8 as stated: with an empty baseline (no geofence row
was loaded), adding a vertex leaves `vertices ≠ originalVertices` while the
dirty flag stays `false` — the flag does not equal the inequality. -/
theorem C8_dirty_flag_counterexample :
    (applyOp (EditorOp.addVertex ⟨1, 1⟩) ⟨none, [], [], true, false, false⟩).vertices ≠
      (applyOp (EditorOp.addVertex ⟨1, 1⟩) ⟨none, [], [], true, false, false⟩).originalVertices ∧
    (applyOp (EditorOp.addVertex ⟨1, 1⟩) ⟨none, [], [], true, false, false⟩).hasChanges = false :=
  ⟨by decide, rfl⟩

/-- Witness for the amended C8 with a non-empty baseline. -/
theorem C8_dirty_flag_amended_witness :
    (applyOp (EditorOp.addVertex ⟨1, 1⟩) ⟨none, [⟨0, 0⟩], [⟨0, 0⟩], true, false, false⟩).hasChanges
        = true ↔
      (applyOp (EditorOp.addVertex ⟨1, 1⟩) ⟨none, [⟨0, 0⟩], [⟨0, 0⟩], true, false, false⟩).vertices ≠
        (applyOp (EditorOp.addVertex ⟨1, 1⟩)
          ⟨none, [⟨0, 0⟩], [⟨0, 0⟩], true, false, false⟩).originalVertices :=
  (C8_dirty_flag_amended ⟨none, [⟨0, 0⟩], [⟨0, 0⟩], true, false, false⟩
    (EditorOp.addVertex ⟨1, 1⟩)).1 (by decide)

/-- Counterexample for C7 as stated: a drop-off carrying a station identifier
that matches no known station (here: empty station list) and lying inside
the geofence keeps the previous `outbound` classification instead of being
reclassified `village` — the classification is sticky in that case. -/
theorem C7_dropoff_counterexample :
    isPointInPolygon ⟨5, 5⟩ [⟨0, 0⟩, ⟨0, 10⟩, ⟨10, 10⟩, ⟨10, 0⟩] = true ∧
    (handleDropoffSelect [] [⟨0, 0⟩, ⟨0, 10⟩, ⟨10, 10⟩, ⟨10, 0⟩]
        ⟨BookingStep.dropoff, none, none, TripType.outbound⟩ ⟨5, 5⟩ (some "S1")).tripType =
      TripType.outbound := by
  constructor
  · norm_num [isPointInPolygon, edgeCheck, List.range_succ]
  · rfl

/-- C7 (amended): drop-off selection always records the candidate and
advances to `confirm`; a station identifier matching a known station forces
`outbound` with that station recorded regardless of geofence containment; a
station identifier matching no known station leaves classification and
station unchanged (sticky in that case); with no station identifier the
classification is recomputed from geofence containment — inside gives
`village` with no station, outside gives `outbound` with no station. -/
theorem C7_dropoff_classification_amended (stations : List Station)
    (geofence : List GeofencePolygon) (s : BookingState) (coords : Coordinates)
    (stationId : Option String) :
    (handleDropoffSelect stations geofence s coords stationId).dropoffLocation = some coords ∧
    (handleDropoffSelect stations geofence s coords stationId).step = BookingStep.confirm ∧
    (∀ sid st, stationId = some sid →
      stations.find? (fun t => t.id == sid) = some st →
      (handleDropoffSelect stations geofence s coords stationId).tripType = TripType.outbound ∧
      (handleDropoffSelect stations geofence s coords stationId).selectedStation = some st) ∧
    (∀ sid, stationId = some sid →
      stations.find? (fun t => t.id == sid) = none →
      (handleDropoffSelect stations geofence s coords stationId).tripType = s.tripType ∧
      (handleDropoffSelect stations geofence s coords stationId).selectedStation =
        s.selectedStation) ∧
    (stationId = none → isPointInPolygon coords geofence = true →
      (handleDropoffSelect stations geofence s coords stationId).tripType = TripType.village ∧
      (handleDropoffSelect stations geofence s coords stationId).selectedStation = none) ∧
    (stationId = none → isPointInPolygon coords geofence = false →
      (handleDropoffSelect stations geofence s coords stationId).tripType = TripType.outbound ∧
      (handleDropoffSelect stations geofence s coords stationId).selectedStation = none) := by
  refine ⟨?_, ?_, ?_, ?_, ?_, ?_⟩
  · unfold handleDropoffSelect
    cases stationId with
    | none => by_cases h : isPointInPolygon coords geofence = true <;> simp [h]
    | some sid => cases hf : stations.find? (fun t => t.id == sid) <;> simp [hf]
  · unfold handleDropoffSelect
    cases stationId with
    | none => by_cases h : isPointInPolygon coords geofence = true <;> simp [h]
    | some sid => cases hf : stations.find? (fun t => t.id == sid) <;> simp [hf]
  · intro sid st hsid hf
    subst hsid
    simp [handleDropoffSelect, hf]
  · intro sid hsid hf
    subst hsid
    simp [handleDropoffSelect, hf]
  · intro hsid hin
    subst hsid
    simp [handleDropoffSelect, hin]
  · intro hsid hout
    subst hsid
    simp [handleDropoffSelect, hout]

/-- Witness for the amended C7: drop-off at a known station outside the
geofence records the station and classifies `outbound`. -/
theorem C7_dropoff_classification_amended_witness :
    (handleDropoffSelect [⟨"S1", "Town Plaza", 0, 0⟩] []
        ⟨BookingStep.dropoff, none, none, TripType.village⟩ ⟨20, 20⟩ (some "S1")).tripType =
      TripType.outbound ∧
    (handleDropoffSelect [⟨"S1", "Town Plaza", 0, 0⟩] []
        ⟨BookingStep.dropoff, none, none, TripType.village⟩ ⟨20, 20⟩ (some "S1")).selectedStation =
      some ⟨"S1", "Town Plaza", 0, 0⟩ :=
  (C7_dropoff_classification_amended [⟨"S1", "Town Plaza", 0, 0⟩] []
    ⟨BookingStep.dropoff, none, none, TripType.village⟩ ⟨20, 20⟩ (some "S1")).2.2.1
    "S1" ⟨"S1", "Town Plaza", 0, 0⟩ rfl (by decide)

end TrkGo
